import Mathlib

/-!
Verification development for the taskolib `Sequence` class (Sequence.cc):
the indentation pass `Sequence::indent`, the recursive-descent syntax
checker `Sequence::check_syntax` with its helpers for WHILE, TRY and IF
constructs, and the label check in the constructor.

Steps are embedded as a structure holding the step type (the closed
eight-tag enumeration from Step.h) and the indentation level; sequences
are lists of steps, iterators become indices into the full list.
C++ `short` arithmetic on the nesting level is embedded as `Int`
(the values stay within [-1, max_indentation_level + 1], far from any
overflow). Thrown `task::Error` exceptions become `Except String`.
-/

/-- The closed step-type tag set of `Step` (Step.h): Action, If, ElseIf,
Else, While, Try, Catch, End. -/
inductive StepType where
  | type_action
  | type_if
  | type_elseif
  | type_else
  | type_while
  | type_try
  | type_catch
  | type_end
  deriving DecidableEq, Repr

/-- One step of a sequence: its type tag and its indentation level
(set only by `Sequence::indent`). -/
structure Step where
  stepType : StepType
  indentationLevel : Nat
  deriving DecidableEq, Repr

instance : Inhabited Step := ⟨⟨StepType.type_action, 0⟩⟩

/-- `step->get_type()` at index `i` of the step list. -/
def stepTypeAt (steps : List Step) (i : Nat) : StepType :=
  (steps.getD i default).stepType

/-- `step->get_indentation_level()` at index `i` of the step list. -/
def levelAt (steps : List Step) (i : Nat) : Nat :=
  (steps.getD i default).indentationLevel

/-- Modelled from the spec: `detail::find_end_of_indented_block` is declared
outside the given sources. Per the spec's block-boundary discovery rule, it
scans forward from `i` (exclusive bound `stop`) and returns the first
position whose indentation level is below `minLevel` (any step at
`minLevel` or deeper is inside the block); if no such position exists it
returns `stop`. -/
def find_end_of_indented_block (steps : List Step) (i stop minLevel : Nat) : Nat :=
  if h : i < stop then
    if levelAt steps i < minLevel then i
    else find_end_of_indented_block steps (i + 1) stop minLevel
  else stop
termination_by stop - i

/-- The boundary scan either reports that no boundary exists (returns
`stop`) or returns a position in the scanned range `[i, stop)`. -/
theorem find_end_eq_or (steps : List Step) (minLevel : Nat) :
    ∀ n i stop, stop - i ≤ n →
      find_end_of_indented_block steps i stop minLevel = stop ∨
        (i ≤ find_end_of_indented_block steps i stop minLevel ∧
          find_end_of_indented_block steps i stop minLevel < stop) := by
  intro n
  induction n with
  | zero =>
    intro i stop hn
    rw [find_end_of_indented_block]
    split
    · omega
    · left; rfl
  | succ m ih =>
    intro i stop hn
    rw [find_end_of_indented_block]
    split
    · split
      · right; omega
      · rcases ih (i + 1) stop (by omega) with h | h
        · left; exact h
        · right; omega
    · left; rfl

/-- Range form of `find_end_eq_or` at the natural fuel. -/
theorem find_end_range (steps : List Step) (i stop minLevel : Nat) :
    find_end_of_indented_block steps i stop minLevel = stop ∨
      (i ≤ find_end_of_indented_block steps i stop minLevel ∧
        find_end_of_indented_block steps i stop minLevel < stop) :=
  find_end_eq_or steps minLevel (stop - i) i stop le_rfl

/-- The diagnostic string built by `Sequence::throw_syntax_error_for_step`:
`"[syntax check] Step N: msg"` where `N` is the 1-based position of the
offending step within the whole sequence (`it - steps_.begin() + 1`);
`i` is the 0-based index. -/
def syntax_message (i : Nat) (msg : String) : String :=
  "[syntax check] Step " ++ toString (i + 1) ++ ": " ++ msg

mutual

/-- `Sequence::check_syntax(ConstIterator begin, ConstIterator end)`:
scans the range `[lo, hi)` of the full step list, dispatching on the type
of the step under the cursor. The C++ loop `while (step < end)` with
`step = check_syntax_for_*(step, end)` is embedded as tail recursion: each
construct helper performs the continuation `check_syntax steps (one past
its END) hi` itself instead of returning the iterator. The C++ `default:`
case ("Unexpected step type") is unreachable for the closed enumeration
and has no counterpart here. -/
def check_syntax (steps : List Step) (lo hi : Nat) : Except String Unit :=
  if hlt : lo < hi then
    match stepTypeAt steps lo with
    | StepType.type_while => check_syntax_for_while steps lo hi
    | StepType.type_try => check_syntax_for_try steps lo hi
    | StepType.type_if => check_syntax_for_if steps lo false lo hi
    | StepType.type_action => check_syntax steps (lo + 1) hi
    | StepType.type_catch => Except.error (syntax_message lo "CATCH without matching TRY")
    | StepType.type_elseif => Except.error (syntax_message lo "ELSE IF without matching IF")
    | StepType.type_else => Except.error (syntax_message lo "ELSE without matching IF")
    | StepType.type_end => Except.error (syntax_message lo "END without matching IF/WHILE/TRY")
  else
    Except.ok ()
termination_by 2 * (hi - lo) + 1
decreasing_by
  all_goals omega

/-- `Sequence::check_syntax_for_while`: finds the block boundary at the
WHILE's level; the boundary must exist and be an END, else
"WHILE without matching END" is attributed to the WHILE step (`lo`);
the body is then validated recursively and scanning resumes after the
END (the C++ `return block_end + 1` to the scanning loop). -/
def check_syntax_for_while (steps : List Step) (lo hi : Nat) : Except String Unit :=
  match hf : find_end_of_indented_block steps (lo + 1) hi (levelAt steps lo + 1) with
  | block_end =>
    if hok : block_end = hi ∨ stepTypeAt steps block_end ≠ StepType.type_end then
      Except.error (syntax_message lo "WHILE without matching END")
    else
      ( check_syntax steps (lo + 1) block_end) >>= fun _ =>
        check_syntax steps (block_end + 1) hi
termination_by 2 * (hi - lo)
decreasing_by
  all_goals
    rcases find_end_range steps (lo + 1) hi (levelAt steps lo + 1) with h | h <;>
      rw [hf] at h <;> simp only [not_or, ne_eq, not_not] at hok <;> omega

/-- `Sequence::check_syntax_for_try`: the first boundary after the TRY at
the TRY's level must exist and be a CATCH, else "TRY without matching
CATCH" attributed to the TRY step (`lo`); the block between TRY and CATCH
is validated; the second boundary after the CATCH must exist and be an
END, else "TRY...CATCH without matching END" attributed to the TRY step;
the block between CATCH and END is validated; scanning resumes after the
END (the C++ `return it_catch_block_end + 1`). -/
def check_syntax_for_try (steps : List Step) (lo hi : Nat) : Except String Unit :=
  match hf : find_end_of_indented_block steps (lo + 1) hi (levelAt steps lo + 1) with
  | it_catch =>
    if hok : it_catch = hi ∨ stepTypeAt steps it_catch ≠ StepType.type_catch then
      Except.error (syntax_message lo "TRY without matching CATCH")
    else
      ( check_syntax steps (lo + 1) it_catch) >>= fun _ =>
        match hf2 : find_end_of_indented_block steps (it_catch + 1) hi (levelAt steps lo + 1) with
        | it_catch_block_end =>
          if hok2 : it_catch_block_end = hi ∨
              stepTypeAt steps it_catch_block_end ≠ StepType.type_end then
            Except.error (syntax_message lo "TRY...CATCH without matching END")
          else
            ( check_syntax steps (it_catch + 1) it_catch_block_end) >>= fun _ =>
              check_syntax steps (it_catch_block_end + 1) hi
termination_by 2 * (hi - lo)
decreasing_by
  all_goals
    first
    | (rcases find_end_range steps (lo + 1) hi (levelAt steps lo + 1) with h | h <;>
        rw [hf] at h <;> simp only [not_or, ne_eq, not_not] at hok <;> omega)
    | (rcases find_end_range steps (it_catch + 1) hi (levelAt steps lo + 1) with h2 | h2 <;>
        rw [hf2] at h2 <;>
        rcases find_end_range steps (lo + 1) hi (levelAt steps lo + 1) with h | h <;>
        rw [hf] at h <;> simp only [not_or, ne_eq, not_not] at hok hok2 <;> omega)

/-- `Sequence::check_syntax_for_if`: the `while (true)` loop, with
`cur` playing `it_block_statement` (initially the IF step `ifPos`) and
`elseFound` the `else_found` flag. Each round finds the next boundary at
the IF's level ("IF without matching END" at `ifPos` if none), validates
the body before it, then dispatches on the boundary type: ELSEIF loops on
(error "ELSE IF after ELSE clause" at the boundary if an ELSE was already
consumed), ELSE loops on setting the flag (error "Duplicate ELSE clause"
at the boundary if set already), END finishes the construct and scanning
resumes after it (the C++ `return it + 1`), anything else is
"Unfinished IF construct" at the boundary. -/
def check_syntax_for_if (steps : List Step) (ifPos : Nat) (elseFound : Bool)
    (cur hi : Nat) : Except String Unit :=
  match hf : find_end_of_indented_block steps (cur + 1) hi (levelAt steps ifPos + 1) with
  | it =>
    if hend : it = hi then
      Except.error (syntax_message ifPos "IF without matching END")
    else
      ( check_syntax steps (cur + 1) it) >>= fun _ =>
        match stepTypeAt steps it with
        | StepType.type_elseif =>
          if elseFound then
            Except.error (syntax_message it "ELSE IF after ELSE clause")
          else
            check_syntax_for_if steps ifPos elseFound it hi
        | StepType.type_else =>
          if elseFound then
            Except.error (syntax_message it "Duplicate ELSE clause")
          else
            check_syntax_for_if steps ifPos true it hi
        | StepType.type_end => check_syntax steps (it + 1) hi
        | _ => Except.error (syntax_message it "Unfinished IF construct")
termination_by 2 * (hi - cur)
decreasing_by
  all_goals
    rcases find_end_range steps (cur + 1) hi (levelAt steps ifPos + 1) with h | h <;>
      rw [hf] at h <;> omega

end

/-- Modelled from the spec: `Step::max_indentation_level` is declared in
Step.h, which is not among the given sources; the spec's invariant list
gives an example maximum of 20, which is fixed here. -/
def max_indentation_level : Int := 20

/-- One iteration of the `for (Step& step : steps_)` loop body of
`Sequence::indent`: from the current step, the running nesting level and
the error recorded so far, produce the step with its assigned indentation
level, the new running level and the (possibly updated) error. The C++
`short` values are embedded as `Int`. -/
def indent_step (s : Step) (level : Int) (err : String) : Step × Int × String :=
  let p : Int × Int :=
    match s.stepType with
    | StepType.type_action => (level, level)
    | StepType.type_if => (level, level + 1)
    | StepType.type_try => (level, level + 1)
    | StepType.type_while => (level, level + 1)
    | StepType.type_catch => (level - 1, level)
    | StepType.type_else => (level - 1, level)
    | StepType.type_elseif => (level - 1, level)
    | StepType.type_end => (level - 1, level - 1)
  let step_level := p.1
  let level1 := p.2
  let q : Int × String :=
    if step_level < 0 then
      (0, if err = "" then "Steps are not nested correctly" else err)
    else (step_level, err)
  let s1 : Step := { s with indentationLevel := q.1.toNat }
  let r : Int × String :=
    if level1 < 0 then
      (0,
        if q.2 = "" then
          "Steps are not nested correctly (every END must correspond to one IF, TRY, or WHILE)"
        else q.2)
    else if level1 > max_indentation_level then
      (max_indentation_level,
        if q.2 = "" then
          "Steps are nested too deeply (max. level: " ++ toString max_indentation_level ++ ")"
        else q.2)
    else (level1, q.2)
  (s1, r.1, r.2)

/-- The full loop of `Sequence::indent` over the remaining steps, carrying
the running level and the recorded error; returns the annotated steps, the
final level and the final error. -/
def indent_loop : List Step → Int → String → List Step × Int × String
  | [], level, err => ([], level, err)
  | s :: rest, level, err =>
    let t := indent_step s level err
    let u := indent_loop rest t.2.1 t.2.2
    (t.1 :: u.1, u.2.1, u.2.2)

/-- `Sequence::indent`: clears the error channel (the pass starts from the
empty error), runs the forward pass from level 0, and afterwards records
"Steps are not nested correctly (there must be one END for each IF, TRY,
WHILE)" if the final level is nonzero and no earlier error was recorded.
Returns the annotated steps and the recorded `indentation_error_`. -/
def indent (steps : List Step) : List Step × String :=
  let u := indent_loop steps 0 ""
  (u.1,
    if u.2.1 ≠ 0 then
      if u.2.2 = "" then
        "Steps are not nested correctly (there must be one END for each IF, TRY, WHILE)"
      else u.2.2
    else u.2.2)

/-- The `task::Sequence` object: its label, its steps and the transient
`indentation_error_` channel filled by the last indentation pass. -/
structure Sequence where
  label_ : String
  steps_ : List Step
  indentation_error_ : String
  deriving DecidableEq, Repr

/-- `Sequence::indent() noexcept` acting on the object: reassigns all
indentation levels and overwrites the error channel. -/
def Sequence.applyIndent (s : Sequence) : Sequence :=
  { s with steps_ := (indent s.steps_).1, indentation_error_ := (indent s.steps_).2 }

/-- The recursive-descent check over the full step range
`[steps_.begin(), steps_.end())`, as invoked by the public
`Sequence::check_syntax()`. -/
def check_syntax_full (steps : List Step) : Except String Unit :=
  check_syntax steps 0 steps.length

/-- The public `Sequence::check_syntax()`: throws the recorded indentation
error if there is one, otherwise runs the recursive-descent check over the
full step range `[begin, end)`. -/
def Sequence.check_syntax (s : Sequence) : Except String Unit :=
  if s.indentation_error_ ≠ "" then Except.error s.indentation_error_
  else check_syntax_full s.steps_

/-- Modelled from the spec: `Sequence::max_label_length` is declared in
Sequence.h, which is not among the given sources; its value is fixed here
at 64 (any positive value works for the properties proved below). -/
def max_label_length : Nat := 64

/-- `Sequence::check_label`: rejects an empty label and a label longer
than `max_label_length` bytes (`string_view::size()` counts bytes, hence
`String.utf8ByteSize`). -/
def check_label (label : String) : Except String Unit :=
  if label = "" then Except.error "Sequence label may not be empty"
  else if label.utf8ByteSize > max_label_length then
    Except.error ("Label \"" ++ label ++ "\" is too long (>" ++ toString max_label_length
      ++ " characters)")
  else Except.ok ()

/-- The `Sequence::Sequence(gul14::string_view label)` constructor: checks
the label, then stores it; the step list and the error channel start
empty (default member initialisation). -/
def Sequence.construct (label : String) : Except String Sequence :=
  match check_label label with
  | Except.error e => Except.error e
  | Except.ok _ => Except.ok { label_ := label, steps_ := [], indentation_error_ := "" }

/-- Modelled from the spec: the validation entry point exercised by the
tests (`add_step` maintaining indentation and `check_correctness_of_steps`
live in Sequence.h, not among the given sources). Per the spec's control
flow, the caller first requests indentation assignment, then syntax
checking. -/
def validate_sequence (steps : List Step) : Except String Unit :=
  Sequence.check_syntax
    { label_ := "sequence", steps_ := (indent steps).1, indentation_error_ := (indent steps).2 }

/-- The error messages of `Sequence::check_syntax(begin, end)` for a bare
block-clause step encountered by the scanning loop (Sequence.cc lines
156-170); other step types do not produce such a message. -/
def bare_clause_message : StepType → String
  | StepType.type_catch => "CATCH without matching TRY"
  | StepType.type_elseif => "ELSE IF without matching IF"
  | StepType.type_else => "ELSE without matching IF"
  | StepType.type_end => "END without matching IF/WHILE/TRY"
  | _ => ""

/-- C1: for every If step reached by the syntax check, the validator
repeatedly finds the next block boundary at the If's level and recursively
validates the body before it; an ElseIf boundary after a consumed Else
raises "ELSE IF after ELSE clause" at the ElseIf; a second Else raises
"Duplicate ELSE clause" at the Else; an End ends the construct and
scanning resumes after it; any other boundary type raises "Unfinished IF
construct" at the boundary; a missing boundary raises "IF without
matching END" at the If step. -/
theorem if_construct_dispatch (steps : List Step) (ifPos : Nat) (elseFound : Bool)
    (cur hi : Nat) :
    check_syntax_for_if steps ifPos elseFound cur hi =
      (let it := find_end_of_indented_block steps (cur + 1) hi (levelAt steps ifPos + 1)
       if it = hi then
         Except.error (syntax_message ifPos "IF without matching END")
       else
         ( check_syntax steps (cur + 1) it) >>= fun _ =>
           match stepTypeAt steps it with
           | StepType.type_elseif =>
             if elseFound then
               Except.error (syntax_message it "ELSE IF after ELSE clause")
             else
               check_syntax_for_if steps ifPos elseFound it hi
           | StepType.type_else =>
             if elseFound then
               Except.error (syntax_message it "Duplicate ELSE clause")
             else
               check_syntax_for_if steps ifPos true it hi
           | StepType.type_end => check_syntax steps (it + 1) hi
           | _ => Except.error (syntax_message it "Unfinished IF construct")) := by
  rw [check_syntax_for_if]
  rfl

/-- C2: for every Try step reached by the syntax check, the first boundary
after the Try at the Try's level must exist and be a Catch, else "TRY
without matching CATCH" at the Try step; the steps between Try and Catch
are recursively validated; the second boundary after the Catch must exist
and be an End, else "TRY...CATCH without matching END" at the Try step;
the steps between Catch and End are recursively validated; on success
scanning resumes after the End. -/
theorem try_construct_dispatch (steps : List Step) (lo hi : Nat) :
    check_syntax_for_try steps lo hi =
      (let it_catch := find_end_of_indented_block steps (lo + 1) hi (levelAt steps lo + 1)
       if it_catch = hi ∨ stepTypeAt steps it_catch ≠ StepType.type_catch then
         Except.error (syntax_message lo "TRY without matching CATCH")
       else
         ( check_syntax steps (lo + 1) it_catch) >>= fun _ =>
           let it_end := find_end_of_indented_block steps (it_catch + 1) hi (levelAt steps lo + 1)
           if it_end = hi ∨ stepTypeAt steps it_end ≠ StepType.type_end then
             Except.error (syntax_message lo "TRY...CATCH without matching END")
           else
             ( check_syntax steps (it_catch + 1) it_end) >>= fun _ =>
               check_syntax steps (it_end + 1) hi) := by
  rw [check_syntax_for_try]
  rfl

/-- C3: for every While step reached by the syntax check, the block
boundary found at the While's level must exist and be exactly an End,
else "WHILE without matching END" is raised attributed to the While step
itself; the body is validated recursively and on success scanning resumes
after the End. -/
theorem while_construct_dispatch (steps : List Step) (lo hi : Nat) :
    check_syntax_for_while steps lo hi =
      (let block_end := find_end_of_indented_block steps (lo + 1) hi (levelAt steps lo + 1)
       if block_end = hi ∨ stepTypeAt steps block_end ≠ StepType.type_end then
         Except.error (syntax_message lo "WHILE without matching END")
       else
         ( check_syntax steps (lo + 1) block_end) >>= fun _ =>
           check_syntax steps (block_end + 1) hi) := by
  rw [check_syntax_for_while]
  rfl

/-- C4: when the body scan of the syntax check encounters a bare Catch,
ElseIf, Else or End step at the cursor, it fails with the matching
"without matching" message carrying the step's 1-based position within
the whole sequence, formatted "[syntax check] Step N: message". (This
scan is only reached when no indentation error was recorded, see the
short-circuit of the public entry point.) -/
theorem bare_clause_error (steps : List Step) (lo hi : Nat) (h1 : lo < hi)
    (h2 : stepTypeAt steps lo = StepType.type_catch ∨
      stepTypeAt steps lo = StepType.type_elseif ∨
      stepTypeAt steps lo = StepType.type_else ∨
      stepTypeAt steps lo = StepType.type_end) :
    check_syntax steps lo hi =
      Except.error ("[syntax check] Step " ++ toString (lo + 1) ++ ": "
        ++ bare_clause_message (stepTypeAt steps lo)) := by
  rw [ check_syntax]
  rw [dif_pos h1]
  rcases h2 with h | h | h | h <;> rw [h] <;> rfl

/-- Witness for C4 at the one-step sequence consisting of a bare Catch. -/
theorem bare_clause_error_witness :
    ((0 : Nat) < 1 ∧
      (stepTypeAt [⟨StepType.type_catch, 0⟩] 0 = StepType.type_catch ∨
        stepTypeAt [⟨StepType.type_catch, 0⟩] 0 = StepType.type_elseif ∨
        stepTypeAt [⟨StepType.type_catch, 0⟩] 0 = StepType.type_else ∨
        stepTypeAt [⟨StepType.type_catch, 0⟩] 0 = StepType.type_end)) ∧
    check_syntax [⟨StepType.type_catch, 0⟩] 0 1 =
      Except.error "[syntax check] Step 1: CATCH without matching TRY" := by
  refine ⟨⟨by decide, by decide⟩, ?_⟩
  rw [bare_clause_error [⟨StepType.type_catch, 0⟩] 0 1 (by decide) (by decide)]
  rfl

/-- C7: the public syntax-check operation short-circuits on a recorded
indentation error: with a non-empty error channel it fails with exactly
that error, independent of the steps; otherwise it performs the
recursive-descent check over the full step range. -/
theorem check_syntax_short_circuit (s : Sequence) :
    Sequence.check_syntax s =
      if s.indentation_error_ = "" then check_syntax s.steps_ 0 s.steps_.length
      else Except.error s.indentation_error_ := by
  rw [Sequence.check_syntax]
  rcases eq_or_ne s.indentation_error_ "" with h | h
  · rw [if_neg (by simpa using h), if_pos h]
    rfl
  · rw [if_pos h, if_neg (by simpa using h)]

/-- C5: each loop iteration of the indentation pass assigns the step a
level that is a function of its type and the current depth — Action and
the openers If/Try/While get the current depth, the clauses
Catch/Else/ElseIf and End get the current depth minus one — clamping a
negative computed level to 0 and recording "Steps are not nested
correctly" (first error wins); the depth then rises by one after an
opener, falls by one after an End and is unchanged otherwise (clamped
into [0, max_indentation_level], recording the depth errors, see the
error component). -/
theorem indent_step_characterisation (s : Step) (level : Int) (err : String)
    (h : 0 ≤ level) :
    indent_step s level err =
      (let assigned : Int :=
         match s.stepType with
         | StepType.type_catch | StepType.type_else | StepType.type_elseif
         | StepType.type_end => level - 1
         | _ => level
       let moved : Int :=
         match s.stepType with
         | StepType.type_if | StepType.type_try | StepType.type_while => level + 1
         | StepType.type_end => level - 1
         | _ => level
       ({ s with indentationLevel := (if assigned < 0 then 0 else assigned).toNat },
        if moved < 0 then 0
        else if moved > max_indentation_level then max_indentation_level
        else moved,
        if assigned < 0 then
          (if err = "" then "Steps are not nested correctly" else err)
        else if moved > max_indentation_level then
          (if err = "" then
            "Steps are nested too deeply (max. level: "
              ++ toString max_indentation_level ++ ")"
          else err)
        else err)) := by
  cases hs : s.stepType <;>
    simp only [indent_step, hs] <;>
    split_ifs <;>
    first
    | rfl
    | omega
    | (exfalso; omega)
    | simp_all

/-- Witness for C5 at a Catch step seen at depth 0 with an empty error
channel. -/
theorem indent_step_characterisation_witness :
    ((0 : Int) ≤ 0) ∧
    indent_step ⟨StepType.type_catch, 3⟩ 0 "" =
      (⟨StepType.type_catch, 0⟩, 0, "Steps are not nested correctly") := by
  refine ⟨le_refl 0, ?_⟩
  rw [indent_step_characterisation ⟨StepType.type_catch, 3⟩ 0 "" (le_refl 0)]
  rfl

/-- Once the error channel is non-empty, a loop iteration never changes
it (every assignment is guarded by an emptiness test). -/
theorem indent_step_keeps_error (s : Step) (level : Int) (err : String)
    (h : err ≠ "") : (indent_step s level err).2.2 = err := by
  obtain ⟨st, lvl⟩ := s
  cases st <;>
    (dsimp only [indent_step]; split_ifs <;> simp_all)

/-- The step annotation and the running depth computed by a loop
iteration do not depend on the error channel. -/
theorem indent_step_error_irrelevant (s : Step) (level : Int) (err err2 : String) :
    (indent_step s level err).1 = (indent_step s level err2).1 ∧
    (indent_step s level err).2.1 = (indent_step s level err2).2.1 := by
  obtain ⟨st, lvl⟩ := s
  cases st <;>
    (dsimp only [indent_step]; split_ifs <;> simp_all)

/-- `indent_step_keeps_error` extended over the whole pass. -/
theorem indent_loop_keeps_error (steps : List Step) :
    ∀ (level : Int) (err : String), err ≠ "" →
      (indent_loop steps level err).2.2 = err := by
  induction steps with
  | nil => intro level err _; rfl
  | cons s rest ih =>
    intro level err h
    have hstep := indent_step_keeps_error s level err h
    simp only [indent_loop]
    rw [hstep]
    exact ih (indent_step s level err).2.1 err h

/-- `indent_step_error_irrelevant` extended over the whole pass. -/
theorem indent_loop_error_irrelevant (steps : List Step) :
    ∀ (level : Int) (err err2 : String),
      (indent_loop steps level err).1 = (indent_loop steps level err2).1 ∧
      (indent_loop steps level err).2.1 = (indent_loop steps level err2).2.1 := by
  induction steps with
  | nil => intro level err err2; exact ⟨rfl, rfl⟩
  | cons s rest ih =>
    intro level err err2
    obtain ⟨h1, h2⟩ := indent_step_error_irrelevant s level err err2
    simp only [indent_loop]
    rw [h1, h2]
    obtain ⟨h3, h4⟩ :=
      ih (indent_step s level err2).2.1 (indent_step s level err).2.2
        (indent_step s level err2).2.2
    rw [h3, h4]
    exact ⟨rfl, rfl⟩

/-- C6: the indentation pass retains only the first structural error —
a non-empty error channel is never overwritten while level bookkeeping
continues unchanged; the end-of-pass error for a nonzero final depth is
recorded only when no earlier error exists; and the pass ignores any
previously recorded error (the channel is cleared at the start), its
result being a total function of the steps alone (never throwing). -/
theorem indentation_first_error_wins (steps : List Step) (level : Int)
    (err err0 : String) (seq : Sequence) (h : err ≠ "") :
    (indent_loop steps level err).2.2 = err ∧
    (indent_loop steps level err).1 = (indent_loop steps level "").1 ∧
    (indent_loop steps level err).2.1 = (indent_loop steps level "").2.1 ∧
    (indent steps).2 =
      (if (indent_loop steps 0 "").2.1 ≠ 0 ∧ (indent_loop steps 0 "").2.2 = "" then
        "Steps are not nested correctly (there must be one END for each IF, TRY, WHILE)"
      else (indent_loop steps 0 "").2.2) ∧
    Sequence.applyIndent { seq with indentation_error_ := err0 } =
      Sequence.applyIndent seq := by
  refine ⟨indent_loop_keeps_error steps level err h,
    (indent_loop_error_irrelevant steps level err "").1,
    (indent_loop_error_irrelevant steps level err "").2, ?_, rfl⟩
  simp only [indent]
  rcases eq_or_ne (indent_loop steps 0 "").2.1 0 with h1 | h1 <;>
    rcases eq_or_ne (indent_loop steps 0 "").2.2 "" with h2 | h2 <;>
    simp [h1, h2]

/-- Witness for C6 at a single End step with a pre-set error channel. -/
theorem indentation_first_error_wins_witness :
    ("preset" ≠ "") ∧
    ((indent_loop [⟨StepType.type_end, 0⟩] 0 "preset").2.2 = "preset" ∧
      (indent_loop [⟨StepType.type_end, 0⟩] 0 "preset").1 =
        (indent_loop [⟨StepType.type_end, 0⟩] 0 "").1 ∧
      (indent_loop [⟨StepType.type_end, 0⟩] 0 "preset").2.1 =
        (indent_loop [⟨StepType.type_end, 0⟩] 0 "").2.1 ∧
      (indent [⟨StepType.type_end, 0⟩]).2 =
        (if (indent_loop [⟨StepType.type_end, 0⟩] 0 "").2.1 ≠ 0 ∧
            (indent_loop [⟨StepType.type_end, 0⟩] 0 "").2.2 = "" then
          "Steps are not nested correctly (there must be one END for each IF, TRY, WHILE)"
        else (indent_loop [⟨StepType.type_end, 0⟩] 0 "").2.2) ∧
      Sequence.applyIndent
          { label_ := "a", steps_ := [⟨StepType.type_end, 0⟩], indentation_error_ := "x" } =
        Sequence.applyIndent
          { label_ := "a", steps_ := [⟨StepType.type_end, 0⟩], indentation_error_ := "" }) := by
  refine ⟨by decide, ?_⟩
  exact indentation_first_error_wins [⟨StepType.type_end, 0⟩] 0 "preset" "x"
    { label_ := "a", steps_ := [⟨StepType.type_end, 0⟩], indentation_error_ := "" }
    (by decide)

/-- A loop iteration of the indentation pass reads nothing of a step but
its type: two steps of equal type are processed identically. -/
theorem indent_step_type_congr (s t : Step) (level : Int) (err : String)
    (h : s.stepType = t.stepType) :
    indent_step s level err = indent_step t level err := by
  obtain ⟨st, sl⟩ := s
  obtain ⟨tt, tl⟩ := t
  simp only at h
  subst h
  cases st <;> rfl

/-- The whole pass reads nothing of the steps but their types. -/
theorem indent_loop_type_congr (s : List Step) :
    ∀ (t : List Step) (level : Int) (err : String),
      s.map Step.stepType = t.map Step.stepType →
      indent_loop s level err = indent_loop t level err := by
  induction s with
  | nil =>
    intro t level err h
    cases t with
    | nil => rfl
    | cons a r => simp at h
  | cons a r ih =>
    intro t level err h
    cases t with
    | nil => simp at h
    | cons b u =>
      simp only [List.map_cons, List.cons.injEq] at h
      simp only [indent_loop]
      rw [indent_step_type_congr a b level err h.1, ih u _ _ h.2]

/-- The pass overwrites levels but keeps every step's type. -/
theorem indent_loop_types_preserved (s : List Step) :
    ∀ (level : Int) (err : String),
      (indent_loop s level err).1.map Step.stepType = s.map Step.stepType := by
  induction s with
  | nil => intro level err; rfl
  | cons a r ih =>
    intro level err
    simp only [indent_loop, List.map_cons, List.cons.injEq]
    refine ⟨?_, ih _ _⟩
    obtain ⟨st, sl⟩ := a
    cases st <;> dsimp only [indent_step] <;> split_ifs <;> rfl

/-- C9: indentation assignment depends only on the sequence of step
types — two step lists with equal type sequences get identical annotated
steps and identical recorded error — and is therefore idempotent:
re-running it on its own output recomputes the same levels and the same
(or no) error, regardless of the indentation levels present before. -/
theorem indent_idempotent (s t : List Step)
    (h : s.map Step.stepType = t.map Step.stepType) :
    indent s = indent t ∧ indent ((indent s).1) = indent s := by
  have congr_st : ∀ (u v : List Step), u.map Step.stepType = v.map Step.stepType →
      indent u = indent v := by
    intro u v huv
    simp only [indent]
    rw [indent_loop_type_congr u v 0 "" huv]
  refine ⟨congr_st s t h, congr_st ((indent s).1) s ?_⟩
  simp only [indent]
  exact indent_loop_types_preserved s 0 ""

/-- Witness for C9: two one-step lists of equal type but different
pre-existing levels. -/
theorem indent_idempotent_witness :
    ([⟨StepType.type_if, 7⟩] : List Step).map Step.stepType =
      ([⟨StepType.type_if, 0⟩] : List Step).map Step.stepType ∧
    (indent [⟨StepType.type_if, 7⟩] = indent [⟨StepType.type_if, 0⟩] ∧
      indent ((indent [⟨StepType.type_if, 7⟩]).1) = indent [⟨StepType.type_if, 7⟩]) := by
  exact ⟨by decide, indent_idempotent [⟨StepType.type_if, 7⟩] [⟨StepType.type_if, 0⟩] (by decide)⟩

/-- C10: the `Sequence` constructor validates its label: an empty label
throws "Sequence label may not be empty", a label longer than
`max_label_length` bytes throws the "too long" error; otherwise the
label is stored unchanged in a sequence with no steps and an empty
error channel. -/
theorem sequence_constructor_label_check (label : String) :
    Sequence.construct label =
      if label = "" then Except.error "Sequence label may not be empty"
      else if label.utf8ByteSize > max_label_length then
        Except.error ("Label \"" ++ label ++ "\" is too long (>"
          ++ toString max_label_length ++ " characters)")
      else Except.ok { label_ := label, steps_ := [], indentation_error_ := "" } := by
  simp only [Sequence.construct, check_label]
  split_ifs <;> rfl

/-- C8 counterexample: under the spec's control flow (indentation
assignment followed by the syntax check), a lone End and an End followed
by a Try do fail, but with the indentation pass's whole-sequence error
"Steps are not nested correctly" thrown by the short-circuit — not with
a step-positioned "without matching" message as the claim states
(neither at position 1 nor at position 2). -/
theorem lone_end_message_counterexample :
    validate_sequence [⟨StepType.type_end, 0⟩] =
      Except.error "Steps are not nested correctly" ∧
    "Steps are not nested correctly" ≠
      "[syntax check] Step 1: END without matching IF/WHILE/TRY" ∧
    validate_sequence [⟨StepType.type_end, 0⟩, ⟨StepType.type_try, 0⟩] =
      Except.error "Steps are not nested correctly" ∧
    "Steps are not nested correctly" ≠
      "[syntax check] Step 2: TRY without matching CATCH" := by
  exact ⟨rfl, by decide, rfl, by decide⟩

/-- C8 amended: a lone End, and an End followed by any opener or clause
step, always fail validation; the failure is the indentation error
"Steps are not nested correctly" recorded by the indentation pass and
thrown by the syntax check's short-circuit, carrying no step position. -/
theorem lone_end_indentation_failure :
    validate_sequence [⟨StepType.type_end, 0⟩] =
      Except.error "Steps are not nested correctly" ∧
    validate_sequence [⟨StepType.type_end, 0⟩, ⟨StepType.type_if, 0⟩] =
      Except.error "Steps are not nested correctly" ∧
    validate_sequence [⟨StepType.type_end, 0⟩, ⟨StepType.type_while, 0⟩] =
      Except.error "Steps are not nested correctly" ∧
    validate_sequence [⟨StepType.type_end, 0⟩, ⟨StepType.type_try, 0⟩] =
      Except.error "Steps are not nested correctly" ∧
    validate_sequence [⟨StepType.type_end, 0⟩, ⟨StepType.type_elseif, 0⟩] =
      Except.error "Steps are not nested correctly" ∧
    validate_sequence [⟨StepType.type_end, 0⟩, ⟨StepType.type_else, 0⟩] =
      Except.error "Steps are not nested correctly" ∧
    validate_sequence [⟨StepType.type_end, 0⟩, ⟨StepType.type_catch, 0⟩] =
      Except.error "Steps are not nested correctly" := by
  exact ⟨rfl, rfl, rfl, rfl, rfl, rfl, rfl⟩
